import Mathlib

/-!
Verification of the `nanohelp.secret` module (class `SecretManager`), a thin
wrapper over an external secret-storage service.  The Python source is embedded
shallowly:

* `secrets.token_hex(32)` is modelled by `token_hex` applied to the list of 32
  bytes drawn from the secure random source (the draw is an explicit argument);
* the external `SecretManagerServiceClient` is modelled as a record of
  state-threading operations (`SMClient`), following how the source uses it as
  an opaque collaborator; `secret_version_path` is the pure path
  formatter of the client;
* Python exceptions are modelled by the inductive `PyExc`; `raise X from e`
  becomes an error value carrying its cause; logging side effects are dropped;
* byte strings and their UTF-8 round-trip are abstracted to `String` (the
  payload values the module handles are strings, and `encode`/`decode` of
  UTF-8 is the identity on them).
-/

namespace Nanohelp

/-- Lowercase hexadecimal digit of a value below 16, as produced by the `hex` encoding of Python: `0`–`9` for 0–9, `a`–`f` for 10–15. -/
def hexDigit (n : Nat) : Char :=
  if n < 10 then Char.ofNat (48 + n) else Char.ofNat (87 + n)

/-- Two-character lowercase hex encoding of one byte. -/
def byteToHex (b : Nat) : List Char :=
  [hexDigit (b / 16), hexDigit (b % 16)]

/-- Model of `secrets.token_hex` from Python applied to the given byte draw:
each byte becomes two lowercase hexadecimal characters. -/
def token_hex (draw : List Nat) : String :=
  ⟨draw.flatMap byteToHex⟩

/-- Model of `SecretManager.generate_private_key`: `secrets.token_hex(32)`,
where `draw` is the 32-byte draw taken from the secure random source. -/
def generate_private_key (draw : List Nat) : String :=
  token_hex draw

/-- Character class `[0-9a-f]`. -/
def isLowerHexDigit (c : Char) : Bool :=
  (48 ≤ c.toNat && c.toNat ≤ 57) || (97 ≤ c.toNat && c.toNat ≤ 102)

lemma hexDigit_isLowerHex : ∀ n, n < 16 → isLowerHexDigit (hexDigit n) = true := by
  decide

lemma flatMap_byteToHex_length (l : List Nat) :
    (l.flatMap byteToHex).length = 2 * l.length := by
  induction l with
  | nil => rfl
  | cons b t ih =>
      simp [List.flatMap_cons, byteToHex, ih]
      omega

lemma hexDigit_inj : ∀ m, m < 16 → ∀ n, n < 16 → hexDigit m = hexDigit n → m = n := by
  decide

lemma byteToHex_inj {a b : Nat} (ha : a < 256) (hb : b < 256)
    (h : byteToHex a = byteToHex b) : a = b := by
  unfold byteToHex at h
  have h1 : hexDigit (a / 16) = hexDigit (b / 16) := by
    simpa using congrArg (fun l => l.headI) h
  have h2 : hexDigit (a % 16) = hexDigit (b % 16) := by
    simpa using congrArg (fun l => l.tail.headI) h
  have hd : a / 16 = b / 16 := by
    apply hexDigit_inj _ (by omega) _ (by omega) h1
  have hm : a % 16 = b % 16 := by
    apply hexDigit_inj _ (by omega) _ (by omega) h2
  omega

lemma flatMap_byteToHex_inj :
    ∀ l1 l2 : List Nat, (∀ b ∈ l1, b < 256) → (∀ b ∈ l2, b < 256) →
      l1.flatMap byteToHex = l2.flatMap byteToHex → l1 = l2 := by
  intro l1
  induction l1 with
  | nil =>
      intro l2 _ _ h
      cases l2 with
      | nil => rfl
      | cons b t => simp [List.flatMap_cons, byteToHex] at h
  | cons a t1 ih =>
      intro l2 h1 h2 h
      cases l2 with
      | nil => simp [List.flatMap_cons, byteToHex] at h
      | cons b t2 =>
          simp only [List.flatMap_cons, byteToHex, List.cons_append, List.nil_append,
            List.cons.injEq] at h
          obtain ⟨e1, e2, e3⟩ := h
          have hab : a = b := by
            apply byteToHex_inj (h1 a (by simp)) (h2 b (by simp))
            simp [byteToHex, e1, e2]
          subst hab
          have ht : t1 = t2 := by
            apply ih t2 (fun x hx => h1 x (by simp [hx])) (fun x hx => h2 x (by simp [hx])) e3
          rw [ht]

/-- An exception raised by the external secret-manager client (the opaque
collaborator); `msg` models `str(e)`. -/
inductive ClientExc where
  | exc (msg : String)
deriving DecidableEq, Repr

/-- Message of a client exception, as used by `"...: {}".format(e)`. -/
def ClientExc.msg : ClientExc → String
  | .exc m => m

/-- Python exceptions observable from the module: `RuntimeError` raised with
`raise ... from e` (message plus `__cause__`), `TypeError` from argument
binding, and `NotImplementedError`. -/
inductive PyExc where
  | runtimeError (msg : String) (cause : ClientExc)
  | typeError (msg : String)
  | notImplementedError (msg : String)
deriving DecidableEq, Repr

/-- Cause (`__cause__`) attached to an exception by `raise ... from e`,
retrievable by the caller. -/
def PyExc.cause : PyExc → Option ClientExc
  | .runtimeError _ c => some c
  | .typeError _ => none
  | .notImplementedError _ => none

/-- Rotation schedule message sent to the store:
`RotationSchedule(next_rotation_time=dict(seconds=...))`. -/
structure RotationSchedule where
  next_rotation_time_seconds : Nat
deriving DecidableEq, Repr

/-- Response of `access_secret_version`: `payload_data` models
`response.payload.data` already UTF-8 decoded (the decode is the identity on
the string payloads this module handles). -/
structure AccessResponse where
  payload_data : String
deriving DecidableEq, Repr

/-- The external `SecretManagerServiceClient`, modelled as an opaque
collaborator over a store state `σ`: each remote call either fails with a
client exception or returns a result and the successor state. -/
structure SMClient (σ : Type) where
  add_secret_version_with_rotation :
    σ → String → List (String × String) → RotationSchedule → Except ClientExc (Unit × σ)
  access_secret_version : σ → String → Except ClientExc (AccessResponse × σ)

/-- Pure path formatter `secret_version_path(project, name, version)` of the client:
`projects/{project}/secrets/{name}/versions/{version}`. -/
def secret_version_path (project name version : String) : String :=
  "projects/" ++ project ++ "/secrets/" ++ name ++ "/versions/" ++ version

/-- Default of the `version` parameter of `store_private_key`. -/
def default_version : String := "latest"

/-- Default of the `rotation_time` parameter of `store_private_key`:
`60 * 60 * 24 * 30` seconds. -/
def default_rotation_time : Nat := 60 * 60 * 24 * 30

/-- Payload dict binding `key` to `private_key` (and nothing else) submitted by `store_private_key`,
modelled as an association list. -/
def store_payload (private_key : String) : List (String × String) :=
  [("key", private_key)]

/-- Rotation schedule built by `store_private_key`:
`next_rotation_time = int(time.time() + rotation_time)` where `now` models
`time.time()`. -/
def store_rotation_schedule (now rotation_time : Nat) : RotationSchedule :=
  ⟨now + rotation_time⟩

/-- Body of the `try` block of `store_private_key`: build the secret-version
path and submit the new secret version with its rotation schedule. -/
def store_try {σ : Type} (client : SMClient σ) (st : σ) (now : Nat)
    (project name private_key version : String) (rotation_time : Nat) :
    Except ClientExc (Unit × σ) :=
  client.add_secret_version_with_rotation st
    (secret_version_path project name version)
    (store_payload private_key)
    (store_rotation_schedule now rotation_time)

/-- Model of `SecretManager.store_private_key`: run the `try` block; any
exception `e` is wrapped as `RuntimeError("Unable to store secret: " + str(e))`
raised `from e` (the `LOG` calls are side-effect free for the caller). -/
def store_private_key {σ : Type} (client : SMClient σ) (st : σ) (now : Nat)
    (project name private_key : String) (version : String := default_version)
    (rotation_time : Nat := default_rotation_time) : Except PyExc (Unit × σ) :=
  match store_try client st now project name private_key version rotation_time with
  | .ok r => .ok r
  | .error e => .error (.runtimeError ("Unable to store secret: " ++ e.msg) e)

/-- Body of the `try` block of `get_private_key`: build the secret-version
path, access it and decode the `data` field of the payload. -/
def get_try {σ : Type} (client : SMClient σ) (st : σ)
    (project name version : String) : Except ClientExc (String × σ) :=
  match client.access_secret_version st (secret_version_path project name version) with
  | .ok (resp, st2) => .ok (resp.payload_data, st2)
  | .error e => .error e

/-- Model of `SecretManager.get_private_key`: run the `try` block; any
exception `e` is wrapped as
`RuntimeError("Unable to retrieve secret: " + str(e))` raised `from e`. -/
def get_private_key {σ : Type} (client : SMClient σ) (st : σ)
    (project name : String) (version : String := default_version) :
    Except PyExc (String × σ) :=
  match get_try client st project name version with
  | .ok r => .ok r
  | .error e => .error (.runtimeError ("Unable to retrieve secret: " ++ e.msg) e)

/-- Model of `SecretManager.generate_and_store_private_key`: it generates the
key and then evaluates `self.store_private_key(user, private_key)`.  That call
binds `user` to `project` and `private_key` to `name` and supplies nothing for
the required third parameter `private_key`, so Python raises `TypeError`
before the body of `store_private_key` runs; there is no `try` around it, so
the `TypeError` propagates and the generated key is not returned. -/
def generate_and_store_private_key {σ : Type} (client : SMClient σ) (st : σ)
    (draw : List Nat) (user : String) : Except PyExc (String × σ) :=
  let private_key := generate_private_key draw
  .error (.typeError
    "store_private_key() missing 1 required positional argument: private_key")

/-- Model of `SecretManager.rotate_private_key`: the first statement raises
`NotImplementedError` unconditionally; the `try` block after it is dead code. -/
def rotate_private_key {σ : Type} (client : SMClient σ) (st : σ) (name : String) :
    Except PyExc (String × σ) :=
  .error (.notImplementedError
    "No use case found for rotating private keys (using this for crypto wallets is a bad idea)")

/-- The write-path failure kind: `RuntimeError("Unable to store secret: ...")`
carrying its cause. -/
def storeFailure (cause : ClientExc) : PyExc :=
  .runtimeError ("Unable to store secret: " ++ cause.msg) cause

/-- The read-path failure kind: `RuntimeError("Unable to retrieve secret: ...")`
carrying its cause. -/
def readFailure (cause : ClientExc) : PyExc :=
  .runtimeError ("Unable to retrieve secret: " ++ cause.msg) cause

/-- Modelled from the spec: the external secret-storage collaborator of §6 as
an in-memory store (the fake the spec suggests), used to evaluate the module
against a store honouring exactly the §6 operations.  The state maps each
locator to the submitted payload; `create-secret-version` records the payload
under the locator; `access-secret-version` returns the recorded payload, whose
`data` field is the `data` entry of the payload dict (absent entries read as the
empty protobuf `bytes` default); an unknown locator fails. -/
def fakeStore : SMClient (List (String × (List (String × String) × RotationSchedule))) :=
  ⟨fun st parent payload sched => .ok ((), (parent, (payload, sched)) :: st),
   fun st name =>
     match st.lookup name with
     | some (payload, _) => .ok (⟨((payload.lookup "data").getD "")⟩, st)
     | none => .error (.exc ("Secret version not found: " ++ name))⟩

/-- A client whose every remote call fails with the given client exception,
for exercising the error paths. -/
def failingClient (m : String) : SMClient Unit :=
  ⟨fun _ _ _ _ => .error (.exc m), fun _ _ => .error (.exc m)⟩

/-- Store state holding one secret version whose payload has a `data` entry,
for exercising the read path. -/
def primedState : List (String × (List (String × String) × RotationSchedule)) :=
  [("projects/p/secrets/n/versions/latest", ([("data", "v")], ⟨0⟩))]

/-- Store state produced by the round-trip store call of property C1. -/
def roundtripState : List (String × (List (String × String) × RotationSchedule)) :=
  [(secret_version_path "p1" "wallet-a" "latest",
    (store_payload "deadbeef", store_rotation_schedule 0 default_rotation_time))]

lemma store_read_msg_ne (m m' : String) :
    ("Unable to store secret: " ++ m) ≠ ("Unable to retrieve secret: " ++ m') := by
  obtain ⟨l⟩ := m
  obtain ⟨l'⟩ := m'
  intro h
  have hd : "Unable to store secret: ".data ++ l =
      "Unable to retrieve secret: ".data ++ l' := congrArg String.data h
  have ht := congrArg (List.take 11) hd
  rw [List.take_append_of_le_length (by decide),
    List.take_append_of_le_length (by decide)] at ht
  exact absurd ht (by decide)

/-- C2: for every 32-byte draw from the secure random source,
`generate_private_key` returns a string of exactly 64 characters, each from
the class `[0-9a-f]`. -/
theorem generate_private_key_length_and_hex (draw : List Nat)
    (h32 : draw.length = 32) (hb : ∀ b ∈ draw, b < 256) :
    (generate_private_key draw).length = 64 ∧
      ∀ c ∈ (generate_private_key draw).data, isLowerHexDigit c = true := by
  constructor
  · show (draw.flatMap byteToHex).length = 64
    rw [flatMap_byteToHex_length, h32]
  · intro c hc
    obtain ⟨b, hbmem, hcb⟩ := List.mem_flatMap.mp hc
    have hblt := hb b hbmem
    unfold byteToHex at hcb
    simp only [List.mem_cons, List.not_mem_nil, or_false] at hcb
    rcases hcb with h | h
    · subst h
      exact hexDigit_isLowerHex _ (by omega)
    · subst h
      exact hexDigit_isLowerHex _ (by omega)

/-- Witness for C2 at the all-zero 32-byte draw. -/
theorem generate_private_key_length_and_hex_witness :
    (generate_private_key (List.replicate 32 0)).length = 64 ∧
      ∀ c ∈ (generate_private_key (List.replicate 32 0)).data,
        isLowerHexDigit c = true :=
  generate_private_key_length_and_hex (List.replicate 32 0) (by decide) (by decide)

/-- C8: two calls of `generate_private_key` whose byte draws from the secure
random source differ return different key strings. -/
theorem generate_private_key_diff_draws (d1 d2 : List Nat)
    (h1 : ∀ b ∈ d1, b < 256) (h2 : ∀ b ∈ d2, b < 256) (hne : d1 ≠ d2) :
    generate_private_key d1 ≠ generate_private_key d2 := by
  intro h
  exact hne (flatMap_byteToHex_inj d1 d2 h1 h2 (congrArg String.data h))

/-- Witness for C8 at two concrete distinct 32-byte draws. -/
theorem generate_private_key_diff_draws_witness :
    generate_private_key (List.replicate 32 0) ≠
      generate_private_key (1 :: List.replicate 31 0) :=
  generate_private_key_diff_draws _ _ (by decide) (by decide) (by decide)

/-- C3: for every client, store state and argument, `rotate_private_key`
returns the fixed not-supported error immediately; the result is one and the
same for every client and store state, so no operation of the external store
is invoked. -/
theorem rotate_private_key_always_unsupported {σ : Type}
    (client : SMClient σ) (st : σ) (name : String) :
    rotate_private_key client st name =
      .error (.notImplementedError
        "No use case found for rotating private keys (using this for crypto wallets is a bad idea)") :=
  rfl

/-- C7: the version label defaults to `latest`, the rotation time defaults to
2,592,000 seconds, and the rotation schedule attached to the new secret
version carries next-rotation time `now + rotation_time` (shown both on the
schedule constructor the store call uses and on what a §6 store records). -/
theorem store_defaults_and_rotation_schedule :
    default_version = "latest" ∧ default_rotation_time = 2592000 ∧
    (∀ {σ : Type} (client : SMClient σ) (st : σ) (now : Nat) (project name key : String),
      store_private_key client st now project name key =
        store_private_key client st now project name key default_version
          default_rotation_time) ∧
    (∀ (now rt : Nat) (project name key version : String),
      store_private_key fakeStore [] now project name key version rt =
        .ok ((), [(secret_version_path project name version,
          (store_payload key, ⟨now + rt⟩))])) := by
  refine ⟨rfl, rfl, fun client st now project name key => rfl,
    fun now rt project name key version => rfl⟩

/-- C4: every write-path failure surfaces as the store-failure kind wrapping
its cause, every read-path failure as the read-failure kind wrapping its
cause; the two kinds are distinct for all causes, and the cause is
retrievable from either. -/
theorem store_and_read_failure_kinds :
    (∀ {σ : Type} (client : SMClient σ) (st : σ) (now : Nat)
        (project name key version : String) (rt : Nat) (e : ClientExc),
      store_try client st now project name key version rt = .error e →
      store_private_key client st now project name key version rt =
        .error (storeFailure e)) ∧
    (∀ {σ : Type} (client : SMClient σ) (st : σ)
        (project name version : String) (e : ClientExc),
      get_try client st project name version = .error e →
      get_private_key client st project name version = .error (readFailure e)) ∧
    (∀ c c' : ClientExc, storeFailure c ≠ readFailure c') ∧
    (∀ c : ClientExc,
      (storeFailure c).cause = some c ∧ (readFailure c).cause = some c) := by
  refine ⟨?_, ?_, ?_, fun c => ⟨rfl, rfl⟩⟩
  · intro σ client st now project name key version rt e h
    simp [store_private_key, h, storeFailure]
  · intro σ client st project name version e h
    simp [get_private_key, h, readFailure]
  · intro c c' h
    simp only [storeFailure, readFailure, PyExc.runtimeError.injEq] at h
    exact store_read_msg_ne c.msg c'.msg h.1

/-- Witness for C4 on a client whose calls fail with cause `boom`. -/
theorem store_and_read_failure_kinds_witness :
    store_private_key (failingClient "boom") () 0 "p" "n" "k" "latest" 5 =
        .error (storeFailure (.exc "boom")) ∧
    get_private_key (failingClient "boom") () "p" "n" "latest" =
        .error (readFailure (.exc "boom")) ∧
    storeFailure (.exc "boom") ≠ readFailure (.exc "boom") ∧
    (storeFailure (.exc "boom")).cause = some (.exc "boom") :=
  ⟨store_and_read_failure_kinds.1 (failingClient "boom") () 0 "p" "n" "k" "latest" 5
      (.exc "boom") rfl,
   store_and_read_failure_kinds.2.1 (failingClient "boom") () "p" "n" "latest"
      (.exc "boom") rfl,
   store_and_read_failure_kinds.2.2.1 (.exc "boom") (.exc "boom"),
   (store_and_read_failure_kinds.2.2.2 (.exc "boom")).1⟩

/-- C9: the payload submitted by the write path binds the key material to the
`key` field and leaves the `data` field unset, while the read path returns
exactly the `data` field of the response payload. -/
theorem store_writes_key_field_get_reads_data_field :
    (∀ pk : String, (store_payload pk).lookup "key" = some pk ∧
      (store_payload pk).lookup "data" = none) ∧
    (∀ {σ : Type} (client : SMClient σ) (st st2 : σ)
        (project name version : String) (resp : AccessResponse),
      client.access_secret_version st (secret_version_path project name version) =
          .ok (resp, st2) →
      get_private_key client st project name version =
        .ok (resp.payload_data, st2)) := by
  refine ⟨fun pk => ⟨rfl, rfl⟩, ?_⟩
  intro σ client st st2 project name version resp h
  simp [get_private_key, get_try, h]

/-- Witness for C9 reading a primed fake store. -/
theorem store_writes_key_field_get_reads_data_field_witness :
    (store_payload "k").lookup "key" = some "k" ∧
    (store_payload "k").lookup "data" = none ∧
    get_private_key fakeStore primedState "p" "n" "latest" =
      .ok ("v", primedState) :=
  ⟨(store_writes_key_field_get_reads_data_field.1 "k").1,
   (store_writes_key_field_get_reads_data_field.1 "k").2,
   store_writes_key_field_get_reads_data_field.2 fakeStore primedState primedState
      "p" "n" "latest" ⟨"v"⟩ rfl⟩

/-- C10: neither operation validates its arguments locally: for every input,
empty strings included, the outcome is exactly that of the client call — a
successful client call passes through unchanged, and every surfaced failure
is the wrap of the client exception, with its cause. -/
theorem no_local_validation :
    (∀ {σ : Type} (client : SMClient σ) (st : σ) (now : Nat)
        (project name key version : String) (rt : Nat),
      (∀ r, store_try client st now project name key version rt = .ok r →
        store_private_key client st now project name key version rt = .ok r) ∧
      (∀ e, store_try client st now project name key version rt = .error e →
        store_private_key client st now project name key version rt =
          .error (.runtimeError ("Unable to store secret: " ++ e.msg) e))) ∧
    (∀ {σ : Type} (client : SMClient σ) (st : σ) (project name version : String),
      (∀ r, get_try client st project name version = .ok r →
        get_private_key client st project name version = .ok r) ∧
      (∀ e, get_try client st project name version = .error e →
        get_private_key client st project name version =
          .error (.runtimeError ("Unable to retrieve secret: " ++ e.msg) e))) := by
  constructor
  · intro σ client st now project name key version rt
    constructor
    · intro r h
      simp [store_private_key, h]
    · intro e h
      simp [store_private_key, h]
  · intro σ client st project name version
    constructor
    · intro r h
      simp [get_private_key, h]
    · intro e h
      simp [get_private_key, h]

/-- Witness for C10 at all-empty string arguments: the store call succeeds on
the fake store with no locally raised error, and the read failure on the empty
fake store is the wrapped client exception. -/
theorem no_local_validation_witness :
    store_private_key fakeStore [] 0 "" "" "" "" 0 =
        .ok ((), [(secret_version_path "" "" "", (store_payload "", ⟨0⟩))]) ∧
    get_private_key fakeStore [] "" "" "" =
        .error (.runtimeError
          ("Unable to retrieve secret: " ++
            (ClientExc.exc ("Secret version not found: " ++ secret_version_path "" "" "")).msg)
          (.exc ("Secret version not found: " ++ secret_version_path "" "" ""))) :=
  ⟨(no_local_validation.1 fakeStore [] 0 "" "" "" "" 0).1
      ((), [(secret_version_path "" "" "", (store_payload "", ⟨0⟩))]) rfl,
   (no_local_validation.2 fakeStore [] "" "" "").2
      (.exc ("Secret version not found: " ++ secret_version_path "" "" "")) rfl⟩

/-- C1 fails on the code: store the key `deadbeef` under
(`p1`, `wallet-a`, `latest`) against the §6 in-memory store, then read the
same locator back — the read returns the empty string, not the stored key,
because the write path files the key under the `key` payload field while the
read path reads the `data` field. -/
theorem store_get_roundtrip_fails :
    store_private_key fakeStore [] 0 "p1" "wallet-a" "deadbeef" =
        .ok ((), roundtripState) ∧
    get_private_key fakeStore roundtripState "p1" "wallet-a" "latest" =
        .ok ("", roundtripState) ∧
    ("" : String) ≠ "deadbeef" := by
  refine ⟨rfl, rfl, by decide⟩

/-- C5 fails on the code: for every client, store state, random draw and user,
`generate_and_store_private_key` raises the argument-binding `TypeError` of
the inner `store_private_key(user, private_key)` call — it never stores
anything and never returns the generated key. -/
theorem generate_and_store_never_succeeds {σ : Type}
    (client : SMClient σ) (st : σ) (draw : List Nat) (user : String) :
    generate_and_store_private_key client st draw user =
      .error (.typeError
        "store_private_key() missing 1 required positional argument: private_key") :=
  rfl

/-- C6 fails on the code: the failure of the store step inside
`generate_and_store_private_key` is never the storage error kind
(a `RuntimeError` wrapping a client cause) — the call raises `TypeError`
before the store body can run — and no call ever succeeds, so the generated
key is indeed never returned. -/
theorem generate_and_store_error_not_storage_kind {σ : Type}
    (client : SMClient σ) (st : σ) (draw : List Nat) (user : String) :
    (∀ (m : String) (c : ClientExc),
      generate_and_store_private_key client st draw user ≠
        .error (.runtimeError m c)) ∧
    (∀ r, generate_and_store_private_key client st draw user ≠ .ok r) := by
  constructor
  · intro m c h
    simp [generate_and_store_private_key] at h
  · intro r h
    simp [generate_and_store_private_key] at h

end Nanohelp
